import Mathlib

/-!
Verification of `tom_dataproducts/views.py` (gemini-hlsw/goats_tom_base).

Shallow embedding: the Django view methods are modelled as pure Lean
functions.  Database tables become lists of records, outbound HTTP calls,
log lines and flash messages become entries of an explicit effect trace,
and Python exceptions become the error side of `Except`.  Responses of
external services (the destination TOM's `api/targets/` endpoint, the
contents of files on disk, the outcome of `run_data_processor`) are
parameters of the embedded functions, since the Python code receives them
from outside.
-/

namespace TomDataproducts

/-- A `DataProduct` row, with the fields the views under study read:
`target` (its id and name), `observation_record`, the file field `data`
(its `name` and `path`), `data_product_type` and `featured`. -/
structure DataProduct where
  id : Nat
  targetId : Nat
  targetName : String
  observationRecordId : Option Nat
  dataName : String
  dataPath : String
  dataProductType : String
  featured : Bool
deriving Repr, DecidableEq

/-- A `ReducedDatum` row, reduced to the fields the views touch: the
foreign key `data_product` and an opaque payload. -/
structure ReducedDatum where
  dataProductId : Nat
  payload : String
deriving Repr, DecidableEq

/-- A CSV row as produced by `csv.DictReader`: an association list from
header field names to values (Python dict access `row[key]`). -/
abbrev Row := List (String × String)

/-- Python exceptions that the sharing flow can raise. -/
inductive PyError where
  | keyError (key : String)
  | improperlyConfigured (msg : String)
  | indexError
deriving Repr, DecidableEq

/-- `True` exactly on `ImproperlyConfigured`. -/
def PyError.isImproperlyConfigured : PyError → Bool
  | .improperlyConfigured _ => true
  | _ => false

/-- `True` exactly on `KeyError`. -/
def PyError.isKeyError : PyError → Bool
  | .keyError _ => true
  | _ => false

/-- One entry of the HERMES photometry payload built by
`submit_to_stream` (the dict literal at views.py lines 324-331). -/
structure HermesEntry where
  photometryId : String
  dateObs : String
  band : String
  brightness : String
  brightnessError : String
  brightnessUnit : String
deriving Repr, DecidableEq

/-- The `alert` dict built by `submit_to_stream` (views.py lines 335-343):
fixed topic/title/author, the photometry entries, and a message text
containing `datetime.datetime.now()` (passed in as `now`). -/
structure HermesAlert where
  topic : String
  title : String
  author : String
  photometry_data : List HermesEntry
  message_text : String
deriving Repr, DecidableEq

/-- Observable effects of the sharing views: outbound HTTP calls, log
lines, flash messages, file opens and the final redirect.  None of these
effects writes to the local database. -/
inductive Effect where
  | httpGet (url : String) (auth : Option (String × String)) (params : List (String × String))
  | httpPostJson (url : String) (alert : HermesAlert)
  | httpPostMultipart (url : String) (auth : Option (String × String))
      (targetId : Nat) (dataProductType : String) (fileName : String)
  | logWarning (msg : String)
  | logDebug (msg : String)
  | uiMessage (level : String) (text : String)
  | openFile (path : String)
  | redirect (target : String)
deriving Repr, DecidableEq

/-- `True` on the two outbound POST effects. -/
def Effect.isPost : Effect → Bool
  | .httpPostJson _ _ => true
  | .httpPostMultipart _ _ _ _ _ => true
  | _ => false

/-- `True` on the outbound GET effect. -/
def Effect.isGet : Effect → Bool
  | .httpGet _ _ _ => true
  | _ => false

/-- `True` on user-facing flash messages (the Django messages framework). -/
def Effect.isUiMessage : Effect → Bool
  | .uiMessage _ _ => true
  | _ => false

/-- The slice of `django.conf.settings` the sharing flow reads:
`DATA_SHARING` (a dict of destination name to config dict) and
`MEDIA_ROOT`. -/
structure Settings where
  dataSharing : List (String × List (String × String))
  mediaRoot : String
deriving Repr, DecidableEq

/-- Python dict access `d[k]`: `KeyError` when the key is absent. -/
def dictGet (d : List (String × String)) (k : String) : Except PyError String :=
  match d.lookup k with
  | some v => Except.ok v
  | none => Except.error (PyError.keyError k)

/-- `settings.DATA_SHARING[name]`: `KeyError` when the destination name
is absent. -/
def Settings.sharingConfig (s : Settings) (name : String) :
    Except PyError (List (String × String)) :=
  match s.dataSharing.lookup name with
  | some cfg => Except.ok cfg
  | none => Except.error (PyError.keyError name)

/-- Maps one TOM-Toolkit photometry CSV row to a HERMES entry
(views.py lines 324-331).  Each dict access raises `KeyError` when the
row lacks the field, as in Python. -/
def rowToHermes (target_name : String) (row : Row) : Except PyError HermesEntry := do
  let time ← dictGet row "time"
  let band ← dictGet row "filter"
  let brightness ← dictGet row "magnitude"
  let brightnessError ← dictGet row "error"
  Except.ok
    { photometryId := target_name
      dateObs := time
      band := band
      brightness := brightness
      brightnessError := brightnessError
      brightnessUnit := "AB mag" }

/-- The `for tomtoolkit_photometry in photometry_data` loop of
`submit_to_stream` (views.py lines 323-331), in file order. -/
def mapRowsToHermes (target_name : String) : List Row → Except PyError (List HermesEntry)
  | [] => Except.ok []
  | row :: rest => do
    let entry ← rowToHermes target_name row
    let entries ← mapRowsToHermes target_name rest
    Except.ok (entry :: entries)

/-- `DataProductShareView.submit_to_stream` (views.py lines 300-348).
The config lookup `settings.DATA_SHARING[stream_name]['BASE_URL']` is NOT
wrapped in a try/except, so a missing entry raises a plain `KeyError`.
Returns the trace of outbound effects.  `now` stands for
`datetime.datetime.now()`; `message` is the (unused) keyword argument,
whose Python default is the string `From TOMToolkit`. -/
def submit_to_stream (settings : Settings) (stream_name : String) (target_name : String)
    (now : String) (photometry_data : List Row) (message : String) :
    Except PyError (List Effect) := do
  let stream_config ← settings.sharingConfig stream_name
  let hermes_base_url ← dictGet stream_config "BASE_URL"
  let submit_url := hermes_base_url ++ "submit/"
  let hermes_photometry_data ← mapRowsToHermes target_name photometry_data
  let alert : HermesAlert :=
    { topic := "hermes.test"
      title := "TOM Toolkit test (Photometry)"
      author := "llindstrom@lco.global"
      photometry_data := hermes_photometry_data
      message_text := "Test alert from TOM Toolkit at " ++ now }
  Except.ok [Effect.httpPostJson submit_url alert]

/-- One element of the destination TOM's `api/targets/` response
`results` list: the fields read by `share_with_tom`. -/
structure TargetQueryResult where
  id : Nat
  name : String
  aliases : List String
deriving Repr, DecidableEq

/-- The JSON body of the destination TOM's `api/targets/` response:
`count` and `results`. -/
structure TargetsResponse where
  count : Nat
  results : List TargetQueryResult
deriving Repr, DecidableEq

/-- The try/except block of `share_with_tom` (views.py lines 360-365):
the three config lookups, with `KeyError` converted to
`ImproperlyConfigured`. -/
def Settings.shareConfig (s : Settings) (tom_name : String) :
    Except PyError (String × String × String) :=
  match (do
      let cfg ← s.sharingConfig tom_name
      let base ← dictGet cfg "BASE_URL"
      let username ← dictGet cfg "USERNAME"
      let password ← dictGet cfg "PASSWORD"
      Except.ok (base, username, password) : Except PyError (String × String × String)) with
  | Except.ok v => Except.ok v
  | Except.error (PyError.keyError k) =>
      Except.error (PyError.improperlyConfigured
        ("Check DATA_SHARING configuration for " ++ tom_name ++ ": Key " ++ k ++ " not found."))
  | Except.error e => Except.error e

/-- The warning logged when the target is not found on the destination
TOM (views.py lines 382-386). -/
def targetNotFoundWarning (target_name tom_name : String) : String :=
  "DataProductShareView.share_with_tom Target " ++ target_name ++ " not found on " ++
    tom_name ++ ". If target " ++ target_name ++ " does exist on the destination TOM, " ++
    "then this may an authentication problem preventing access to the targets on " ++
    tom_name ++ "."

/-- The warning logged when more than one target matches
(views.py lines 391-397), accumulated over `results`. -/
def ambiguousTargetWarning (tom_name target_name : String)
    (results : List TargetQueryResult) : String :=
  results.foldl
    (fun m t =>
      m ++ "  Target: " ++ t.name ++ " Aliases: " ++ String.intercalate ", " t.aliases ++ "\n")
    ("Target name must be unique on destination TOM " ++ tom_name ++
      ". The following targets share a name or alias with " ++ target_name ++ ":\n")

/-- `DataProductShareView.share_with_tom` (views.py lines 350-419).
`target_response` is the parsed JSON of the destination TOM's answer to
the `api/targets/` GET.  Returns the trace of effects: the GET always
comes first; on `count == 1` the file is opened and POSTed with the same
basic auth; on `count == 0` or `count > 1` a warning is logged and the
method returns early, with no POST and no UI message. -/
def share_with_tom (settings : Settings) (tom_name : String) (product : DataProduct)
    (target_response : TargetsResponse) : Except PyError (List Effect) := do
  let (destination_tom_base_url, username, password) ← settings.shareConfig tom_name
  let auth := (username, password)
  let target_name := product.targetName
  let targets_url := destination_tom_base_url ++ "api/targets/"
  let getEffect := Effect.httpGet targets_url (some auth) [("name", target_name)]
  if target_response.count = 1 then do
    let first ← match target_response.results.head? with
      | some t => Except.ok t
      | none => Except.error PyError.indexError
    let destination_tom_target_id := first.id
    let data_products_url := destination_tom_base_url ++ "api/dataproducts/"
    let dataproduct_filename := settings.mediaRoot ++ "/" ++ product.dataName
    Except.ok
      [getEffect,
       Effect.openFile dataproduct_filename,
       Effect.httpPostMultipart data_products_url (some auth) destination_tom_target_id
         product.dataProductType product.dataName,
       Effect.logDebug "DataProductShareView.share_with_tom response.status_code",
       Effect.logDebug "DataProductShareView.share_with_tom response.text"]
  else if target_response.count = 0 then
    Except.ok [getEffect, Effect.logWarning (targetNotFoundWarning target_name tom_name)]
  else
    Except.ok
      [getEffect,
       Effect.logWarning (ambiguousTargetWarning tom_name target_name target_response.results)]

/-- Header-based comma-delimited CSV parsing, as done by
`csv.DictReader(csvfile, delimiter=',')` followed by
`[row for row in photometry_reader]` (views.py lines 438-440): the first
line supplies the field names, every further non-blank line becomes one
dict, in file order. -/
def csvDictReader (content : String) : List Row :=
  match (content.splitOn "\n").filter (fun line => line ≠ "") with
  | [] => []
  | header :: rest =>
    let keys := header.splitOn ","
    rest.map (fun line => keys.zip (line.splitOn ","))

/-- The debug line logged at the top of `DataProductShareView.get`
(views.py line 431). -/
def sharingDebugMsg (product : DataProduct) : String :=
  "Sharing data product: " ++ product.dataName ++ " of type: " ++ product.dataProductType

/-- `DataProductShareView.get` (views.py lines 421-454).  `fs` maps a
filesystem path to the contents of the file there; `now` stands for
`datetime.datetime.now()`; `target_id` is the `target_id` query
parameter used for the final redirect.  The sharing destination is the
hardcoded string `hermes`, so the `share_with_tom` branch is dead code;
for a photometry product the CSV at `product.data.path` is parsed with
`csv.DictReader` and handed to `submit_to_stream`; for any other product
type the method only logs and redirects. -/
def shareViewGet (settings : Settings) (fs : String → String) (product : DataProduct)
    (now : String) (target_id : String) : Except PyError (List Effect) := do
  let debugEffect := Effect.logDebug (sharingDebugMsg product)
  if product.dataProductType = "photometry" then do
    let sharing_destination := "hermes"
    if sharing_destination = "hermes" then do
      let data := csvDictReader (fs product.dataPath)
      let submitEffects ←
        submit_to_stream settings sharing_destination product.targetName now data
          "From TOMToolkit"
      Except.ok (debugEffect :: Effect.openFile product.dataPath :: submitEffects ++
        [Effect.redirect target_id])
    else do
      let shareEffects ←
        share_with_tom settings sharing_destination product (TargetsResponse.mk 0 [])
      Except.ok (debugEffect :: shareEffects ++ [Effect.redirect target_id])
  else
    Except.ok [debugEffect, Effect.redirect target_id]

/-- The cache key built by
`make_template_fragment_key('featured_image', str(target.id))`
(views.py lines 274-277), as a function of the target id. -/
def makeFeaturedImageKey (targetId : Nat) : String :=
  "template.cache.featured_image." ++ toString targetId

/-- Database-plus-cache state seen by `DataProductFeatureView`. -/
structure FeatureState where
  products : List DataProduct
  cacheKeys : List String
deriving Repr, DecidableEq

/-- `DataProductFeatureView.get` (views.py lines 257-286), without the
final redirect.  Fetches the product (`DataProduct.DoesNotExist`, i.e.
`none`, when the pk is absent), sets `featured = False` on every
currently featured product with the same target and data product type,
deleting each one's cached featured image, then sets
`featured = True` on the selected product and saves it. -/
def featureViewGet (st : FeatureState) (product_id : Nat) : Option FeatureState :=
  match st.products.find? (fun dp => dp.id = product_id) with
  | none => none
  | some product =>
    let isCurrentFeatured := fun (dp : DataProduct) =>
      dp.featured && dp.dataProductType = product.dataProductType &&
        dp.targetId = product.targetId
    let current_featured := st.products.filter isCurrentFeatured
    let products1 := st.products.map (fun dp =>
      if isCurrentFeatured dp then { dp with featured := false } else dp)
    let cache1 := current_featured.foldl
      (fun keys dp => keys.filter (fun k => k ≠ makeFeaturedImageKey dp.targetId))
      st.cacheKeys
    let products2 := products1.map (fun dp =>
      if dp.id = product_id then { dp with featured := true } else dp)
    some { products := products2, cacheKeys := cache1 }

/-- Database-plus-file-storage state seen by `DataProductDeleteView`. -/
structure DeleteState where
  dataProducts : List DataProduct
  reducedData : List ReducedDatum
  files : List String
deriving Repr, DecidableEq

/-- The three deletion steps of `DataProductDeleteView.delete`, in the
order the view performs them. -/
inductive DeleteStep where
  | reducedDataFor (dataProductId : Nat)
  | dataFile (name : String)
  | dataProductRecord (id : Nat)
deriving Repr, DecidableEq

/-- `DataProductDeleteView.delete` (views.py lines 191-201).  Looks up
the object by pk, deletes every `ReducedDatum` whose `data_product` is
that object, then deletes the object's stored data file, then deletes
the `DataProduct` row itself (`super().delete(...)`).  Returns the new
state together with the ordered list of deletion steps. -/
def dataProductDeleteViewDelete (st : DeleteState) (pk : Nat) :
    Option (DeleteState × List DeleteStep) :=
  match st.dataProducts.find? (fun dp => dp.id = pk) with
  | none => none
  | some obj =>
    let st1 : DeleteState :=
      { st with reducedData := st.reducedData.filter (fun rd => rd.dataProductId ≠ obj.id) }
    let st2 : DeleteState :=
      { st1 with files := st1.files.filter (fun f => f ≠ obj.dataName) }
    let st3 : DeleteState :=
      { st2 with dataProducts := st2.dataProducts.filter (fun dp => dp.id ≠ obj.id) }
    some (st3,
      [DeleteStep.reducedDataFor obj.id, DeleteStep.dataFile obj.dataName,
       DeleteStep.dataProductRecord obj.id])

/-- Outcome of the `try` block run for one uploaded file in
`DataProductUploadView.form_valid`: success, an
`InvalidFileFormatException` carrying its message, or any other
exception. -/
inductive ProcessOutcome where
  | success
  | invalidFileFormat (errMsg : String)
  | otherException
deriving Repr, DecidableEq

/-- One uploaded file as seen by `form_valid`: its name, the payloads of
the `ReducedDatum` rows `run_data_processor` creates before the `try`
block resolves, and the outcome of the block. -/
structure UploadedFile where
  fileName : String
  reducedPayloads : List String
  outcome : ProcessOutcome
deriving Repr, DecidableEq

/-- A flash message added through the Django messages framework. -/
structure FlashMessage where
  level : String
  text : String
deriving Repr, DecidableEq

/-- Database-plus-messages state seen by `DataProductUploadView`. -/
structure UploadState where
  dataProducts : List DataProduct
  reducedData : List ReducedDatum
  messages : List FlashMessage
deriving Repr, DecidableEq

/-- The `DataProduct` built for one uploaded file (views.py lines
117-124): the form's target and observation record, the file itself, and
the form's data product type.  `dpId` is the pk the database assigns on
`dp.save()`. -/
def mkUploadedDataProduct (targetId : Nat) (targetName : String)
    (observationRecordId : Option Nat) (dp_type : String) (fileName : String)
    (dpId : Nat) : DataProduct :=
  { id := dpId
    targetId := targetId
    targetName := targetName
    observationRecordId := observationRecordId
    dataName := fileName
    dataPath := fileName
    dataProductType := dp_type
    featured := false }

/-- `str(dp)` as used in the flash messages; stands for the
`DataProduct.__str__` of the model layer (not part of this file), which
renders the product's data name. -/
def dpStr (dp : DataProduct) : String := dp.dataName

/-- The error flash message of the `except InvalidFileFormatException`
branch (views.py lines 137-140). -/
def invalidFormatMessage (dp : DataProduct) (errMsg : String) : FlashMessage :=
  { level := "error"
    text := "File format invalid for file " ++ dpStr dp ++ " -- error was " ++ errMsg }

/-- The error flash message of the generic `except Exception` branch
(views.py line 144). -/
def genericErrorMessage (dp : DataProduct) : FlashMessage :=
  { level := "error"
    text := "There was a problem processing your file: " ++ dpStr dp }

/-- The error flash message `form_valid` adds for a file whose
processing fails with the given outcome (`none` on success). -/
def uploadErrorMessage (dp : DataProduct) : ProcessOutcome → Option FlashMessage
  | ProcessOutcome.success => none
  | ProcessOutcome.invalidFileFormat errMsg => some (invalidFormatMessage dp errMsg)
  | ProcessOutcome.otherException => some (genericErrorMessage dp)

/-- One iteration of the `for f in data_product_files` loop of
`form_valid` (views.py lines 116-144): save the `DataProduct` (pk
`dpId`), let `run_data_processor` create the file's `ReducedDatum` rows,
then on an exception delete every `ReducedDatum` of that product, delete
the product, and add the error flash message.  Returns the new state and
`str(dp)` when the file was appended to `successful_uploads`. -/
def processUploadedFile (targetId : Nat) (targetName : String)
    (observationRecordId : Option Nat) (dp_type : String) (st : UploadState)
    (dpId : Nat) (f : UploadedFile) : UploadState × Option String :=
  let dp := mkUploadedDataProduct targetId targetName observationRecordId dp_type
    f.fileName dpId
  let afterSave : UploadState := { st with dataProducts := st.dataProducts ++ [dp] }
  let created := f.reducedPayloads.map (fun p => ReducedDatum.mk dp.id p)
  let afterProcess : UploadState :=
    { afterSave with reducedData := afterSave.reducedData ++ created }
  match uploadErrorMessage dp f.outcome with
  | none => (afterProcess, some (dpStr dp))
  | some msg =>
    ({ afterProcess with
        reducedData := afterProcess.reducedData.filter (fun rd => rd.dataProductId ≠ dp.id)
        dataProducts := afterProcess.dataProducts.filter (fun d => d.id ≠ dp.id)
        messages := afterProcess.messages ++ [msg] },
      none)

/-- The whole `for f in data_product_files` loop, threading the state,
the next pk to assign and the `successful_uploads` accumulator. -/
def uploadLoop (targetId : Nat) (targetName : String) (observationRecordId : Option Nat)
    (dp_type : String) : List UploadedFile → UploadState → Nat → List String →
    UploadState × List String
  | [], st, _, successful_uploads => (st, successful_uploads)
  | f :: rest, st, nextId, successful_uploads =>
    match processUploadedFile targetId targetName observationRecordId dp_type st nextId f with
    | (st1, some s) =>
      uploadLoop targetId targetName observationRecordId dp_type rest st1 (nextId + 1)
        (successful_uploads ++ [s])
    | (st1, none) =>
      uploadLoop targetId targetName observationRecordId dp_type rest st1 (nextId + 1)
        successful_uploads

/-- The success flash message added when `successful_uploads` is
non-empty (views.py lines 145-149). -/
def successMessage (successful_uploads : List String) : FlashMessage :=
  { level := "success"
    text := "Successfully uploaded: " ++ String.intercalate "\n" successful_uploads }

/-- `DataProductUploadView.form_valid` (views.py lines 102-151), without
the final redirect: run the per-file loop, then add the success flash
message when at least one file succeeded.  `nextId` is the first pk the
database will assign. -/
def uploadFormValid (targetId : Nat) (targetName : String)
    (observationRecordId : Option Nat) (dp_type : String) (files : List UploadedFile)
    (st : UploadState) (nextId : Nat) : UploadState :=
  match uploadLoop targetId targetName observationRecordId dp_type files st nextId [] with
  | (st1, successful_uploads) =>
    if successful_uploads ≠ [] then
      { st1 with messages := st1.messages ++ [successMessage successful_uploads] }
    else st1

/-- The HERMES entry the spec describes for one row: photometryId is the
target name, dateObs/band/brightness/brightnessError are the row's
time/filter/magnitude/error fields, and the constant unit is AB mag.
Used to state the payload mapping; the defaults never fire when the row
has the four fields. -/
def specHermesEntry (target_name : String) (row : Row) : HermesEntry :=
  { photometryId := target_name
    dateObs := (row.lookup "time").getD ""
    band := (row.lookup "filter").getD ""
    brightness := (row.lookup "magnitude").getD ""
    brightnessError := (row.lookup "error").getD ""
    brightnessUnit := "AB mag" }

/-- `True` when the row has the four fields `submit_to_stream` reads. -/
def rowHasPhotometryKeys (row : Row) : Bool :=
  (row.lookup "time").isSome && (row.lookup "filter").isSome &&
    (row.lookup "magnitude").isSome && (row.lookup "error").isSome

/-- `True` when the `DATA_SHARING` entry for `name` is absent or misses
one of the keys `share_with_tom` requires (BASE_URL, USERNAME,
PASSWORD). -/
def shareConfigIncomplete (s : Settings) (name : String) : Bool :=
  match s.dataSharing.lookup name with
  | none => true
  | some cfg => (cfg.lookup "BASE_URL").isNone || (cfg.lookup "USERNAME").isNone ||
      (cfg.lookup "PASSWORD").isNone

/-- `True` when the `DATA_SHARING` entry for `name` is absent or misses
the only key `submit_to_stream` reads (BASE_URL). -/
def streamConfigIncomplete (s : Settings) (name : String) : Bool :=
  match s.dataSharing.lookup name with
  | none => true
  | some cfg => (cfg.lookup "BASE_URL").isNone

/-- Every `DataProduct` pk and every `ReducedDatum` foreign key in the
state is below `n`: the database will assign pks starting at `n`. -/
def UploadBounded (st : UploadState) (n : Nat) : Prop :=
  (∀ dp ∈ st.dataProducts, dp.id < n) ∧ (∀ rd ∈ st.reducedData, rd.dataProductId < n)

/-- A complete sharing-destination config dict, for concrete instances. -/
def sampleConfig : List (String × String) :=
  [("BASE_URL", "http://dest.example/"), ("USERNAME", "alice"), ("PASSWORD", "secret")]

/-- Concrete settings with two well-configured destinations. -/
def sampleSettings : Settings :=
  { dataSharing := [("hermes", sampleConfig), ("tom-dest", sampleConfig)]
    mediaRoot := "/media" }

/-- A concrete photometry data product. -/
def sampleProduct : DataProduct :=
  { id := 7
    targetId := 3
    targetName := "M31"
    observationRecordId := none
    dataName := "phot.csv"
    dataPath := "/media/phot.csv"
    dataProductType := "photometry"
    featured := false }

/-- A concrete photometry CSV row with the four required fields. -/
def sampleRow : Row :=
  [("time", "2459000.5"), ("filter", "r"), ("magnitude", "18.3"), ("error", "0.1")]

/-- A concrete element of an `api/targets/` response. -/
def sampleTarget : TargetQueryResult :=
  { id := 42, name := "M31", aliases := ["Andromeda"] }

/-- A concrete feature-view state: product 1 is currently featured for
the same target and type as product 2. -/
def sampleFeatureState : FeatureState :=
  { products := [{ sampleProduct with id := 1, featured := true },
      { sampleProduct with id := 2 }]
    cacheKeys := [makeFeaturedImageKey sampleProduct.targetId] }

/-- A concrete delete-view state: product 7 with two reduced datum rows
and its stored file. -/
def sampleDeleteState : DeleteState :=
  { dataProducts := [sampleProduct]
    reducedData := [ReducedDatum.mk 7 "r1", ReducedDatum.mk 7 "r2"]
    files := ["phot.csv"] }

/-- A concrete two-file upload: the first file fails with an invalid
format, the second succeeds. -/
def sampleUploadFiles : List UploadedFile :=
  [UploadedFile.mk "bad.csv" ["r1"] (ProcessOutcome.invalidFileFormat "no header"),
   UploadedFile.mk "good.csv" ["r2"] ProcessOutcome.success]

/-! ## Helper lemmas -/

theorem shareConfig_error_of_incomplete (s : Settings) (name : String)
    (h : shareConfigIncomplete s name = true) :
    ∃ k, s.shareConfig name = Except.error (PyError.improperlyConfigured
      ("Check DATA_SHARING configuration for " ++ name ++ ": Key " ++ k ++
        " not found.")) := by
  unfold shareConfigIncomplete at h
  cases hl : s.dataSharing.lookup name with
  | none =>
    exact ⟨name, by
      simp [Settings.shareConfig, Settings.sharingConfig, hl, Bind.bind, Except.bind]⟩
  | some cfg =>
    rw [hl] at h
    cases hb : cfg.lookup "BASE_URL" with
    | none =>
      exact ⟨"BASE_URL", by
        simp [Settings.shareConfig, Settings.sharingConfig, dictGet, hl, hb,
          Bind.bind, Except.bind]⟩
    | some base =>
      cases hu : cfg.lookup "USERNAME" with
      | none =>
        exact ⟨"USERNAME", by
          simp [Settings.shareConfig, Settings.sharingConfig, dictGet, hl, hb, hu,
            Bind.bind, Except.bind]⟩
      | some u =>
        cases hp : cfg.lookup "PASSWORD" with
        | none =>
          exact ⟨"PASSWORD", by
            simp [Settings.shareConfig, Settings.sharingConfig, dictGet, hl, hb, hu, hp,
              Bind.bind, Except.bind]⟩
        | some p => simp [hb, hu, hp] at h

theorem rowToHermes_ok (target_name : String) (row : Row)
    (h : rowHasPhotometryKeys row = true) :
    rowToHermes target_name row = Except.ok (specHermesEntry target_name row) := by
  simp only [rowHasPhotometryKeys, Bool.and_eq_true, Option.isSome_iff_exists] at h
  obtain ⟨⟨⟨⟨t, ht⟩, f, hf⟩, m, hm⟩, e, he⟩ := h
  simp [rowToHermes, dictGet, specHermesEntry, ht, hf, hm, he, Bind.bind, Except.bind]

theorem mapRowsToHermes_ok (target_name : String) (rows : List Row)
    (h : ∀ row ∈ rows, rowHasPhotometryKeys row = true) :
    mapRowsToHermes target_name rows =
      Except.ok (rows.map (specHermesEntry target_name)) := by
  induction rows with
  | nil => rfl
  | cons row rest ih =>
    have h1 := h row (List.mem_cons_self _ _)
    have h2 : ∀ r ∈ rest, rowHasPhotometryKeys r = true :=
      fun r hr => h r (List.mem_cons_of_mem _ hr)
    simp [mapRowsToHermes, rowToHermes_ok target_name row h1, ih h2,
      Bind.bind, Except.bind]

/-! ## Claim C3 -/

/-- C3 counterexample: with an empty `DATA_SHARING` configuration,
`submit_to_stream` for the destination name `hermes` raises a plain
`KeyError`, not `ImproperlyConfigured` — the bare dict access at
views.py line 301 is not wrapped in a try/except, so the claim that both
sharing operations raise a framework-level configuration error is false. -/
theorem c3_counterexample :
    submit_to_stream { dataSharing := [], mediaRoot := "/media" } "hermes" "M31"
        "2023-01-01 00:00:00" [] "From TOMToolkit" =
      Except.error (PyError.keyError "hermes") ∧
    (PyError.keyError "hermes").isImproperlyConfigured = false := by
  exact ⟨rfl, rfl⟩

/-- C3 (amended): for every destination whose `DATA_SHARING` entry is
absent or missing a required key, `share_with_tom` raises
`ImproperlyConfigured` (its three config lookups sit in a try/except
`KeyError`), while `submit_to_stream` raises a plain `KeyError` for an
absent entry or missing `BASE_URL`, its only required key. -/
theorem c3_amended_config_errors (settings : Settings)
    (tom_name stream_name target_name now message : String) (product : DataProduct)
    (resp : TargetsResponse) (rows : List Row)
    (h1 : shareConfigIncomplete settings tom_name = true)
    (h2 : streamConfigIncomplete settings stream_name = true) :
    (∃ msg, share_with_tom settings tom_name product resp =
        Except.error (PyError.improperlyConfigured msg)) ∧
    (∃ k, submit_to_stream settings stream_name target_name now rows message =
        Except.error (PyError.keyError k)) := by
  constructor
  · obtain ⟨k, hk⟩ := shareConfig_error_of_incomplete settings tom_name h1
    refine ⟨"Check DATA_SHARING configuration for " ++ tom_name ++ ": Key " ++ k ++
      " not found.", ?_⟩
    simp [share_with_tom, hk, Bind.bind, Except.bind]
  · unfold streamConfigIncomplete at h2
    cases hl : settings.dataSharing.lookup stream_name with
    | none =>
      exact ⟨stream_name, by
        simp [submit_to_stream, Settings.sharingConfig, hl, Bind.bind, Except.bind]⟩
    | some cfg =>
      rw [hl] at h2
      cases hb : cfg.lookup "BASE_URL" with
      | none =>
        exact ⟨"BASE_URL", by
          simp [submit_to_stream, Settings.sharingConfig, dictGet, hl, hb,
            Bind.bind, Except.bind]⟩
      | some base => simp [hb] at h2

/-- C3 witness: the amended theorem applied to a concrete configuration
that lacks both destinations. -/
theorem c3_amended_witness :
    (∃ msg, share_with_tom { dataSharing := [], mediaRoot := "/media" } "tom-dest"
        sampleProduct (TargetsResponse.mk 0 []) =
        Except.error (PyError.improperlyConfigured msg)) ∧
    (∃ k, submit_to_stream { dataSharing := [], mediaRoot := "/media" } "hermes" "M31"
        "2023-01-01 00:00:00" [] "From TOMToolkit" =
        Except.error (PyError.keyError k)) :=
  c3_amended_config_errors { dataSharing := [], mediaRoot := "/media" } "tom-dest"
    "hermes" "M31" "2023-01-01 00:00:00" "From TOMToolkit" sampleProduct
    (TargetsResponse.mk 0 []) [] rfl rfl

/-! ## Claim C4 -/

/-- C4: `submit_to_stream` maps each photometry CSV row, in order and
one-to-one, to a HERMES entry with photometryId the target name, dateObs
the row's time, band its filter, brightness its magnitude,
brightnessError its error, and the constant unit AB mag, and POSTs the
resulting alert as JSON to the configured base URL concatenated with
`submit/`. -/
theorem c4_submit_payload (settings : Settings) (cfg : List (String × String))
    (stream_name target_name now message base : String) (rows : List Row)
    (hcfg : settings.dataSharing.lookup stream_name = some cfg)
    (hbase : cfg.lookup "BASE_URL" = some base)
    (hrows : ∀ row ∈ rows, rowHasPhotometryKeys row = true) :
    submit_to_stream settings stream_name target_name now rows message =
      Except.ok [Effect.httpPostJson (base ++ "submit/")
        { topic := "hermes.test"
          title := "TOM Toolkit test (Photometry)"
          author := "llindstrom@lco.global"
          photometry_data := rows.map (specHermesEntry target_name)
          message_text := "Test alert from TOM Toolkit at " ++ now }] := by
  simp [submit_to_stream, Settings.sharingConfig, dictGet, hcfg, hbase,
    mapRowsToHermes_ok target_name rows hrows, Bind.bind, Except.bind]

/-- C4 witness: the payload theorem applied to a concrete configuration
and a concrete one-row CSV. -/
theorem c4_witness :
    submit_to_stream sampleSettings "hermes" "M31" "2023-01-01 00:00:00" [sampleRow]
        "From TOMToolkit" =
      Except.ok [Effect.httpPostJson ("http://dest.example/" ++ "submit/")
        { topic := "hermes.test"
          title := "TOM Toolkit test (Photometry)"
          author := "llindstrom@lco.global"
          photometry_data := [sampleRow].map (specHermesEntry "M31")
          message_text := "Test alert from TOM Toolkit at " ++ "2023-01-01 00:00:00" }] :=
  c4_submit_payload sampleSettings sampleConfig "hermes" "M31" "2023-01-01 00:00:00"
    "From TOMToolkit" "http://dest.example/" [sampleRow] (by decide) (by decide)
    (by decide)

/-! ## Case equations for `share_with_tom` -/

theorem share_with_tom_config_error (settings : Settings) (tom_name : String)
    (product : DataProduct) (resp : TargetsResponse) (e : PyError)
    (hcfg : settings.shareConfig tom_name = Except.error e) :
    share_with_tom settings tom_name product resp = Except.error e := by
  simp [share_with_tom, hcfg, Bind.bind, Except.bind]

theorem share_with_tom_count_zero (settings : Settings) (tom_name : String)
    (product : DataProduct) (resp : TargetsResponse) (base username password : String)
    (hcfg : settings.shareConfig tom_name = Except.ok (base, username, password))
    (hcount : resp.count = 0) :
    share_with_tom settings tom_name product resp =
      Except.ok [Effect.httpGet (base ++ "api/targets/") (some (username, password))
          [("name", product.targetName)],
        Effect.logWarning (targetNotFoundWarning product.targetName tom_name)] := by
  simp [share_with_tom, hcfg, hcount, Bind.bind, Except.bind]

theorem share_with_tom_count_many (settings : Settings) (tom_name : String)
    (product : DataProduct) (resp : TargetsResponse) (base username password : String)
    (hcfg : settings.shareConfig tom_name = Except.ok (base, username, password))
    (hcount : 1 < resp.count) :
    share_with_tom settings tom_name product resp =
      Except.ok [Effect.httpGet (base ++ "api/targets/") (some (username, password))
          [("name", product.targetName)],
        Effect.logWarning
          (ambiguousTargetWarning tom_name product.targetName resp.results)] := by
  have h1 : resp.count ≠ 1 := by omega
  have h0 : resp.count ≠ 0 := by omega
  simp [share_with_tom, hcfg, h1, h0, Bind.bind, Except.bind]

theorem share_with_tom_count_one (settings : Settings) (tom_name : String)
    (product : DataProduct) (resp : TargetsResponse) (base username password : String)
    (t : TargetQueryResult)
    (hcfg : settings.shareConfig tom_name = Except.ok (base, username, password))
    (hcount : resp.count = 1) (hhead : resp.results.head? = some t) :
    share_with_tom settings tom_name product resp =
      Except.ok [Effect.httpGet (base ++ "api/targets/") (some (username, password))
          [("name", product.targetName)],
        Effect.openFile (settings.mediaRoot ++ "/" ++ product.dataName),
        Effect.httpPostMultipart (base ++ "api/dataproducts/") (some (username, password))
          t.id product.dataProductType product.dataName,
        Effect.logDebug "DataProductShareView.share_with_tom response.status_code",
        Effect.logDebug "DataProductShareView.share_with_tom response.text"] := by
  simp [share_with_tom, hcfg, hcount, hhead, Bind.bind, Except.bind]

theorem share_with_tom_count_one_no_result (settings : Settings) (tom_name : String)
    (product : DataProduct) (resp : TargetsResponse) (base username password : String)
    (hcfg : settings.shareConfig tom_name = Except.ok (base, username, password))
    (hcount : resp.count = 1) (hhead : resp.results.head? = none) :
    share_with_tom settings tom_name product resp = Except.error PyError.indexError := by
  simp [share_with_tom, hcfg, hcount, hhead, Bind.bind, Except.bind]

/-! ## Claim C2 -/

/-- C2: when the destination TOM's `api/targets/` query reports a count
of 0 (target missing) or greater than 1 (target ambiguous),
`share_with_tom` logs a warning and returns: its whole effect trace is
the GET followed by one log warning, with no POST and no user-facing UI
message. -/
theorem c2_silent_return_on_bad_count (settings : Settings) (tom_name : String)
    (product : DataProduct) (resp : TargetsResponse) (base username password : String)
    (hcfg : settings.shareConfig tom_name = Except.ok (base, username, password))
    (hcount : resp.count = 0 ∨ 1 < resp.count) :
    share_with_tom settings tom_name product resp =
      Except.ok [Effect.httpGet (base ++ "api/targets/") (some (username, password))
          [("name", product.targetName)],
        Effect.logWarning (if resp.count = 0 then
            targetNotFoundWarning product.targetName tom_name
          else ambiguousTargetWarning tom_name product.targetName resp.results)] ∧
    (∀ effs, share_with_tom settings tom_name product resp = Except.ok effs →
      effs.countP Effect.isPost = 0 ∧ effs.countP Effect.isUiMessage = 0) := by
  rcases hcount with h0 | h2
  · rw [share_with_tom_count_zero settings tom_name product resp base username password
      hcfg h0]
    refine ⟨by simp [h0], ?_⟩
    intro effs heq
    cases heq
    simp [List.countP_cons, Effect.isPost, Effect.isUiMessage]
  · rw [share_with_tom_count_many settings tom_name product resp base username password
      hcfg h2]
    have h0 : resp.count ≠ 0 := by omega
    refine ⟨by simp [h0], ?_⟩
    intro effs heq
    cases heq
    simp [List.countP_cons, Effect.isPost, Effect.isUiMessage]

/-- C2 witness: a concrete missing-target response (count 0). -/
theorem c2_witness :
    share_with_tom sampleSettings "tom-dest" sampleProduct (TargetsResponse.mk 0 []) =
      Except.ok [Effect.httpGet ("http://dest.example/" ++ "api/targets/")
          (some ("alice", "secret")) [("name", sampleProduct.targetName)],
        Effect.logWarning (if (TargetsResponse.mk 0 []).count = 0 then
            targetNotFoundWarning sampleProduct.targetName "tom-dest"
          else ambiguousTargetWarning "tom-dest" sampleProduct.targetName
            (TargetsResponse.mk 0 []).results)] :=
  (c2_silent_return_on_bad_count sampleSettings "tom-dest" sampleProduct
    (TargetsResponse.mk 0 []) "http://dest.example/" "alice" "secret" rfl
    (Or.inl rfl)).1

/-! ## Claim C5 -/

/-- C5: with a well-configured destination, `share_with_tom` first
issues the GET to `api/targets/` with basic auth given by the configured
username and password, and its trace contains a POST to
`api/dataproducts/` with the same auth exactly when the target query
returned exactly one match. -/
theorem c5_get_then_conditional_post (settings : Settings) (tom_name : String)
    (product : DataProduct) (resp : TargetsResponse) (base username password : String)
    (hcfg : settings.shareConfig tom_name = Except.ok (base, username, password))
    (hwf : resp.results.length = resp.count) :
    ∃ effs, share_with_tom settings tom_name product resp = Except.ok effs ∧
      effs.head? = some (Effect.httpGet (base ++ "api/targets/")
        (some (username, password)) [("name", product.targetName)]) ∧
      ((∃ tid, Effect.httpPostMultipart (base ++ "api/dataproducts/")
          (some (username, password)) tid product.dataProductType product.dataName ∈
            effs) ↔ resp.count = 1) := by
  cases hc : resp.count with
  | zero =>
    refine ⟨_, share_with_tom_count_zero settings tom_name product resp base username
      password hcfg hc, rfl, ?_⟩
    constructor
    · rintro ⟨tid, htid⟩
      simp at htid
    · intro h1
      omega
  | succ n =>
    cases n with
    | zero =>
      have hlen : resp.results.length = 1 := by rw [hwf, hc]
      obtain ⟨t, hres⟩ := List.length_eq_one.mp hlen
      have hhead : resp.results.head? = some t := by rw [hres]; rfl
      refine ⟨_, share_with_tom_count_one settings tom_name product resp base username
        password t hcfg hc hhead, rfl, ?_⟩
      constructor
      · intro _
        rfl
      · intro _
        exact ⟨t.id, by simp⟩
    | succ m =>
      have h2 : 1 < resp.count := by omega
      refine ⟨_, share_with_tom_count_many settings tom_name product resp base username
        password hcfg h2, rfl, ?_⟩
      constructor
      · rintro ⟨tid, htid⟩
        simp at htid
      · intro h1
        omega

/-- C5 witness: a concrete unique-match response (count 1). -/
theorem c5_witness :
    (share_with_tom sampleSettings "tom-dest" sampleProduct
      (TargetsResponse.mk 1 [sampleTarget])).isOk = true := by
  obtain ⟨effs, heq, -, -⟩ := c5_get_then_conditional_post sampleSettings "tom-dest"
    sampleProduct (TargetsResponse.mk 1 [sampleTarget]) "http://dest.example/" "alice"
    "secret" rfl (by decide)
  rw [heq]
  rfl

/-! ## Claim C6 -/

/-- C6: the outbound calls of one sharing request are never repeated:
every completed `submit_to_stream` invocation performs exactly one POST
and no GET, and every completed `share_with_tom` invocation performs
exactly one GET, which comes first, and at most one POST — there is no
retry of any call. -/
theorem c6_sequential_no_retry (settings : Settings)
    (stream_name target_name now message tom_name : String) (rows : List Row)
    (product : DataProduct) (resp : TargetsResponse) :
    (∀ effs, submit_to_stream settings stream_name target_name now rows message =
        Except.ok effs →
      effs.countP Effect.isPost = 1 ∧ effs.countP Effect.isGet = 0) ∧
    (∀ effs, share_with_tom settings tom_name product resp = Except.ok effs →
      effs.countP Effect.isGet = 1 ∧ effs.countP Effect.isPost ≤ 1 ∧
      ∃ g, effs.head? = some g ∧ Effect.isGet g = true) := by
  constructor
  · intro effs heq
    cases h1 : settings.sharingConfig stream_name with
    | error e => simp [submit_to_stream, h1, Bind.bind, Except.bind] at heq
    | ok cfg =>
      cases h2 : dictGet cfg "BASE_URL" with
      | error e => simp [submit_to_stream, h1, h2, Bind.bind, Except.bind] at heq
      | ok base =>
        cases h3 : mapRowsToHermes target_name rows with
        | error e => simp [submit_to_stream, h1, h2, h3, Bind.bind, Except.bind] at heq
        | ok entries =>
          simp [submit_to_stream, h1, h2, h3, Bind.bind, Except.bind] at heq
          subst heq
          simp [List.countP_cons, Effect.isPost, Effect.isGet]
  · intro effs heq
    cases hcfg : settings.shareConfig tom_name with
    | error e =>
      rw [share_with_tom_config_error settings tom_name product resp e hcfg] at heq
      simp at heq
    | ok triple =>
      obtain ⟨base, username, password⟩ := triple
      cases hc : resp.count with
      | zero =>
        rw [share_with_tom_count_zero settings tom_name product resp base username
          password hcfg hc] at heq
        simp only [Except.ok.injEq] at heq
        subst heq
        refine ⟨by simp [List.countP_cons, Effect.isGet], by
          simp [List.countP_cons, Effect.isPost], ⟨_, rfl, rfl⟩⟩
      | succ n =>
        cases n with
        | zero =>
          cases hh : resp.results.head? with
          | none =>
            rw [share_with_tom_count_one_no_result settings tom_name product resp base
              username password hcfg hc hh] at heq
            simp at heq
          | some t =>
            rw [share_with_tom_count_one settings tom_name product resp base username
              password t hcfg hc hh] at heq
            simp only [Except.ok.injEq] at heq
            subst heq
            refine ⟨by simp [List.countP_cons, Effect.isGet], by
              simp [List.countP_cons, Effect.isPost], ⟨_, rfl, rfl⟩⟩
        | succ m =>
          have h2 : 1 < resp.count := by omega
          rw [share_with_tom_count_many settings tom_name product resp base username
            password hcfg h2] at heq
          simp only [Except.ok.injEq] at heq
          subst heq
          refine ⟨by simp [List.countP_cons, Effect.isGet], by
            simp [List.countP_cons, Effect.isPost], ⟨_, rfl, rfl⟩⟩

/-- C6 witness: the no-retry theorem applied to a concrete completed
`submit_to_stream` invocation. -/
theorem c6_witness :
    [Effect.httpPostJson ("http://dest.example/" ++ "submit/")
        { topic := "hermes.test"
          title := "TOM Toolkit test (Photometry)"
          author := "llindstrom@lco.global"
          photometry_data := []
          message_text := "Test alert from TOM Toolkit at " ++ "2023-01-01 00:00:00" }
      ].countP Effect.isPost = 1 ∧
    [Effect.httpPostJson ("http://dest.example/" ++ "submit/")
        { topic := "hermes.test"
          title := "TOM Toolkit test (Photometry)"
          author := "llindstrom@lco.global"
          photometry_data := []
          message_text := "Test alert from TOM Toolkit at " ++ "2023-01-01 00:00:00" }
      ].countP Effect.isGet = 0 :=
  (c6_sequential_no_retry sampleSettings "hermes" "M31" "2023-01-01 00:00:00"
    "From TOMToolkit" "tom-dest" [] sampleProduct (TargetsResponse.mk 0 [])).1 _ rfl

/-! ## Claim C7 -/

/-- C7: for a photometry product, `DataProductShareView.get` passes to
`submit_to_stream` exactly the rows obtained by parsing the file at
`product.data.path` with the header-based comma-delimited CSV reader, in
file order: the whole run equals `submit_to_stream` applied to
`csvDictReader` of that file's contents, wrapped in the surrounding log,
file-open and redirect effects. -/
theorem c7_rows_from_file (settings : Settings) (fs : String → String)
    (product : DataProduct) (now target_id : String)
    (h : product.dataProductType = "photometry") :
    shareViewGet settings fs product now target_id =
      (submit_to_stream settings "hermes" product.targetName now
          (csvDictReader (fs product.dataPath)) "From TOMToolkit").map
        (fun effs => Effect.logDebug (sharingDebugMsg product) ::
          Effect.openFile product.dataPath :: (effs ++ [Effect.redirect target_id])) := by
  cases hs : submit_to_stream settings "hermes" product.targetName now
      (csvDictReader (fs product.dataPath)) "From TOMToolkit" with
  | error e => simp [shareViewGet, h, hs, Bind.bind, Except.bind, Except.map]
  | ok effs => simp [shareViewGet, h, hs, Bind.bind, Except.bind, Except.map]

/-- C7 witness: a concrete photometry product and one-row CSV file. -/
theorem c7_witness :
    shareViewGet sampleSettings
        (fun _ => "time,filter,magnitude,error\n2459000.5,r,18.3,0.1") sampleProduct
        "2023-01-01 00:00:00" "3" =
      (submit_to_stream sampleSettings "hermes" sampleProduct.targetName
          "2023-01-01 00:00:00"
          (csvDictReader ((fun _ : String =>
            "time,filter,magnitude,error\n2459000.5,r,18.3,0.1")
              sampleProduct.dataPath)) "From TOMToolkit").map
        (fun effs => Effect.logDebug (sharingDebugMsg sampleProduct) ::
          Effect.openFile sampleProduct.dataPath :: (effs ++ [Effect.redirect "3"])) :=
  c7_rows_from_file sampleSettings
    (fun _ => "time,filter,magnitude,error\n2459000.5,r,18.3,0.1") sampleProduct
    "2023-01-01 00:00:00" "3" (by decide)

/-! ## Claim C10 -/

/-- C10: for a product whose type is not photometry,
`DataProductShareView.get` performs no CSV parsing, no outbound HTTP
call and no file open: its whole effect trace is the initial debug log
line and the redirect to the target detail page, and that trace contains
no POST and no GET. -/
theorem c10_non_photometry_noop (settings : Settings) (fs : String → String)
    (product : DataProduct) (now target_id : String)
    (h : product.dataProductType ≠ "photometry") :
    shareViewGet settings fs product now target_id =
      Except.ok [Effect.logDebug (sharingDebugMsg product), Effect.redirect target_id] ∧
    [Effect.logDebug (sharingDebugMsg product),
      Effect.redirect target_id].countP Effect.isPost = 0 ∧
    [Effect.logDebug (sharingDebugMsg product),
      Effect.redirect target_id].countP Effect.isGet = 0 := by
  refine ⟨by simp [shareViewGet, h], ?_, ?_⟩ <;>
    simp [List.countP_cons, Effect.isPost, Effect.isGet]

/-- C10 witness: a concrete spectroscopy product. -/
theorem c10_witness :
    shareViewGet sampleSettings (fun _ => "")
        { sampleProduct with dataProductType := "spectroscopy" } "2023-01-01 00:00:00"
        "3" =
      Except.ok [Effect.logDebug (sharingDebugMsg
          { sampleProduct with dataProductType := "spectroscopy" }),
        Effect.redirect "3"] ∧
    [Effect.logDebug (sharingDebugMsg
        { sampleProduct with dataProductType := "spectroscopy" }),
      Effect.redirect "3"].countP Effect.isPost = 0 ∧
    [Effect.logDebug (sharingDebugMsg
        { sampleProduct with dataProductType := "spectroscopy" }),
      Effect.redirect "3"].countP Effect.isGet = 0 :=
  c10_non_photometry_noop sampleSettings (fun _ => "")
    { sampleProduct with dataProductType := "spectroscopy" } "2023-01-01 00:00:00" "3"
    (by decide)

/-! ## Claim C9 -/

/-- C9: `DataProductDeleteView.delete` leaves no `ReducedDatum`
referencing the deleted product: it deletes every `ReducedDatum` whose
`data_product` is the object, then the object's stored data file, then
the `DataProduct` row itself, in that order, and afterwards no reduced
datum, no data product row and no file of the object remains. -/
theorem c9_delete_cleanup_and_order (st : DeleteState) (pk : Nat) (obj : DataProduct)
    (hfind : st.dataProducts.find? (fun dp => dp.id = pk) = some obj) :
    ∃ st', dataProductDeleteViewDelete st pk = some (st',
        [DeleteStep.reducedDataFor pk, DeleteStep.dataFile obj.dataName,
         DeleteStep.dataProductRecord pk]) ∧
      (∀ rd ∈ st'.reducedData, rd.dataProductId ≠ pk) ∧
      (∀ dp ∈ st'.dataProducts, dp.id ≠ pk) ∧
      obj.dataName ∉ st'.files := by
  have hid : obj.id = pk := by
    have h := List.find?_some hfind
    simpa using h
  refine ⟨{ dataProducts := st.dataProducts.filter (fun dp => dp.id ≠ obj.id)
            reducedData := st.reducedData.filter (fun rd => rd.dataProductId ≠ obj.id)
            files := st.files.filter (fun f => f ≠ obj.dataName) }, ?_, ?_, ?_, ?_⟩
  · simp [dataProductDeleteViewDelete, hfind, hid]
  · intro rd hrd
    have h := (List.mem_filter.mp hrd).2
    rw [hid] at h
    simpa using h
  · intro dp hdp
    have h := (List.mem_filter.mp hdp).2
    rw [hid] at h
    simpa using h
  · intro hmem
    have h := (List.mem_filter.mp hmem).2
    simp at h

/-- C9 witness: deleting product 7 from a concrete state with two
reduced datum rows. -/
theorem c9_witness :
    (dataProductDeleteViewDelete sampleDeleteState 7).isSome = true := by
  obtain ⟨st', heq, -, -, -⟩ := c9_delete_cleanup_and_order sampleDeleteState 7
    sampleProduct (by decide)
  rw [heq]
  rfl

/-! ## Cache-clearing lemmas for the feature view -/

theorem foldl_filter_preserve (l : List DataProduct) (init : List String) (x : String)
    (hx : x ∉ init) :
    x ∉ l.foldl
      (fun keys d => keys.filter (fun k => k ≠ makeFeaturedImageKey d.targetId)) init := by
  induction l generalizing init with
  | nil => exact hx
  | cons d rest ih =>
    apply ih
    intro hmem
    exact hx (List.mem_filter.mp hmem).1

theorem foldl_filter_removes (l : List DataProduct) (dp : DataProduct) (hdp : dp ∈ l) :
    ∀ init : List String, makeFeaturedImageKey dp.targetId ∉ l.foldl
      (fun keys d => keys.filter (fun k => k ≠ makeFeaturedImageKey d.targetId)) init := by
  induction l with
  | nil => cases hdp
  | cons d rest ih =>
    intro init
    rw [List.foldl_cons]
    rcases List.mem_cons.mp hdp with heq | hmem
    · subst heq
      apply foldl_filter_preserve
      intro hmem2
      have h := (List.mem_filter.mp hmem2).2
      simp at h
    · exact ih hmem _

/-! ## Claim C8 -/

/-- C8: `DataProductFeatureView.get` makes the selected product the
unique featured product for its (target, data product type) pair: it
clears `featured` (and the cached featured image) of every currently
featured product with that pair, then features the selected product, so
afterwards a product with that pair is featured exactly when it is the
selected one. -/
theorem c8_unique_featured (st : FeatureState) (product_id : Nat) (product : DataProduct)
    (hfind : st.products.find? (fun dp => dp.id = product_id) = some product) :
    ∃ st', featureViewGet st product_id = some st' ∧
      { product with featured := true } ∈ st'.products ∧
      (∀ dp ∈ st'.products,
        dp.targetId = product.targetId → dp.dataProductType = product.dataProductType →
          (dp.featured = true ↔ dp.id = product_id)) ∧
      (∀ dp ∈ st.products, dp.featured = true → dp.targetId = product.targetId →
        dp.dataProductType = product.dataProductType →
          makeFeaturedImageKey dp.targetId ∉ st'.cacheKeys) := by
  have hid : product.id = product_id := by
    have h := List.find?_some hfind
    simpa using h
  have hmem : product ∈ st.products := List.mem_of_find?_eq_some hfind
  refine ⟨FeatureState.mk
    ((st.products.map (fun dp =>
        if dp.featured && dp.dataProductType = product.dataProductType &&
            dp.targetId = product.targetId then { dp with featured := false } else dp)).map
      (fun dp => if dp.id = product_id then { dp with featured := true } else dp))
    ((st.products.filter (fun dp =>
        dp.featured && dp.dataProductType = product.dataProductType &&
          dp.targetId = product.targetId)).foldl
      (fun keys dp => keys.filter (fun k => k ≠ makeFeaturedImageKey dp.targetId))
      st.cacheKeys), ?_, ?_, ?_, ?_⟩
  · unfold featureViewGet
    rw [hfind]
  · rw [List.map_map]
    refine List.mem_map.mpr ⟨product, hmem, ?_⟩
    cases hpf : product.featured <;> simp [Function.comp, hpf, hid]
  · intro dp hdp
    rw [List.map_map] at hdp
    obtain ⟨dp0, h0, heq⟩ := List.mem_map.mp hdp
    subst heq
    intro hta hty
    simp only [Function.comp_apply, apply_ite DataProduct.id,
      apply_ite DataProduct.featured, apply_ite DataProduct.targetId,
      apply_ite DataProduct.dataProductType, ite_self] at hta hty ⊢
    by_cases hcid : dp0.id = product_id <;> by_cases hf : dp0.featured <;>
      simp [hcid, hf, hta, hty] at hta hty ⊢
  · intro dp hdp hfeat hta hty
    have hcf : dp ∈ st.products.filter (fun d =>
        d.featured && d.dataProductType = product.dataProductType &&
          d.targetId = product.targetId) := by
      refine List.mem_filter.mpr ⟨hdp, ?_⟩
      simp [hfeat, hta, hty]
    exact foldl_filter_removes _ dp hcf _

/-- C8 witness: featuring product 2 in a concrete state where product 1
is currently featured for the same pair. -/
theorem c8_witness : (featureViewGet sampleFeatureState 2).isSome = true := by
  obtain ⟨st', heq, -, -, -⟩ := c8_unique_featured sampleFeatureState 2
    { sampleProduct with id := 2 } (by decide)
  rw [heq]
  rfl

/-! ## Per-file lemmas for the upload loop -/

theorem processUploadedFile_eq_success (t : Nat) (tn : String) (o : Option Nat)
    (ty : String) (st : UploadState) (n : Nat) (f : UploadedFile)
    (h : f.outcome = ProcessOutcome.success) :
    processUploadedFile t tn o ty st n f =
      ({ st with
          dataProducts := st.dataProducts ++ [mkUploadedDataProduct t tn o ty f.fileName n]
          reducedData := st.reducedData ++
            f.reducedPayloads.map (fun p => ReducedDatum.mk n p) },
        some (dpStr (mkUploadedDataProduct t tn o ty f.fileName n))) := by
  simp [processUploadedFile, h, uploadErrorMessage, mkUploadedDataProduct]

theorem processUploadedFile_eq_failure (t : Nat) (tn : String) (o : Option Nat)
    (ty : String) (st : UploadState) (n : Nat) (f : UploadedFile) (msg : FlashMessage)
    (h : uploadErrorMessage (mkUploadedDataProduct t tn o ty f.fileName n) f.outcome =
      some msg) :
    processUploadedFile t tn o ty st n f =
      ({ st with
          dataProducts := (st.dataProducts ++
            [mkUploadedDataProduct t tn o ty f.fileName n]).filter (fun d => d.id ≠ n)
          reducedData := (st.reducedData ++
            f.reducedPayloads.map (fun p => ReducedDatum.mk n p)).filter
              (fun rd => rd.dataProductId ≠ n)
          messages := st.messages ++ [msg] },
        none) := by
  simp only [mkUploadedDataProduct] at h
  simp [processUploadedFile, h, mkUploadedDataProduct]

theorem processUploadedFile_bounded (t : Nat) (tn : String) (o : Option Nat)
    (ty : String) (st : UploadState) (n : Nat) (f : UploadedFile)
    (hb : UploadBounded st n) :
    UploadBounded (processUploadedFile t tn o ty st n f).1 (n + 1) := by
  obtain ⟨hdp, hrd⟩ := hb
  cases h : uploadErrorMessage (mkUploadedDataProduct t tn o ty f.fileName n)
      f.outcome with
  | none =>
    have hout : f.outcome = ProcessOutcome.success := by
      cases hcase : f.outcome <;> rw [hcase] at h <;> simp [uploadErrorMessage] at h
    rw [processUploadedFile_eq_success t tn o ty st n f hout]
    constructor
    · intro dp hmem
      rcases List.mem_append.mp hmem with h1 | h1
      · exact Nat.lt_succ_of_lt (hdp dp h1)
      · rw [List.mem_singleton] at h1
        subst h1
        simp [mkUploadedDataProduct]
    · intro rd hmem
      rcases List.mem_append.mp hmem with h1 | h1
      · exact Nat.lt_succ_of_lt (hrd rd h1)
      · obtain ⟨p, hp, heq⟩ := List.mem_map.mp h1
        subst heq
        exact Nat.lt_succ_self n
  | some msg =>
    rw [processUploadedFile_eq_failure t tn o ty st n f msg h]
    constructor
    · intro dp hmem
      rcases List.mem_append.mp (List.mem_filter.mp hmem).1 with h1 | h1
      · exact Nat.lt_succ_of_lt (hdp dp h1)
      · rw [List.mem_singleton] at h1
        subst h1
        simp [mkUploadedDataProduct]
    · intro rd hmem
      rcases List.mem_append.mp (List.mem_filter.mp hmem).1 with h1 | h1
      · exact Nat.lt_succ_of_lt (hrd rd h1)
      · obtain ⟨p, hp, heq⟩ := List.mem_map.mp h1
        subst heq
        exact Nat.lt_succ_self n

theorem processUploadedFile_frame (t : Nat) (tn : String) (o : Option Nat) (ty : String)
    (st : UploadState) (n : Nat) (f : UploadedFile) :
    (∀ dp : DataProduct, dp.id ≠ n →
      (dp ∈ (processUploadedFile t tn o ty st n f).1.dataProducts ↔
        dp ∈ st.dataProducts)) ∧
    (∀ rd : ReducedDatum, rd.dataProductId ≠ n →
      (rd ∈ (processUploadedFile t tn o ty st n f).1.reducedData ↔
        rd ∈ st.reducedData)) ∧
    (∀ m ∈ st.messages, m ∈ (processUploadedFile t tn o ty st n f).1.messages) := by
  cases h : uploadErrorMessage (mkUploadedDataProduct t tn o ty f.fileName n)
      f.outcome with
  | none =>
    have hout : f.outcome = ProcessOutcome.success := by
      cases hcase : f.outcome <;> rw [hcase] at h <;> simp [uploadErrorMessage] at h
    rw [processUploadedFile_eq_success t tn o ty st n f hout]
    refine ⟨?_, ?_, ?_⟩
    · intro dp hdp
      simp only [List.mem_append, List.mem_singleton]
      constructor
      · rintro (h1 | h1)
        · exact h1
        · subst h1
          simp [mkUploadedDataProduct] at hdp
      · exact Or.inl
    · intro rd hrd
      simp only [List.mem_append, List.mem_map]
      constructor
      · rintro (h1 | ⟨p, hp, heq⟩)
        · exact h1
        · subst heq
          simp at hrd
      · exact Or.inl
    · intro m hm
      exact hm
  | some msg =>
    rw [processUploadedFile_eq_failure t tn o ty st n f msg h]
    refine ⟨?_, ?_, ?_⟩
    · intro dp hdp
      simp only [List.mem_filter, List.mem_append, List.mem_singleton]
      constructor
      · rintro ⟨h1 | h1, -⟩
        · exact h1
        · subst h1
          simp [mkUploadedDataProduct] at hdp
      · intro h1
        exact ⟨Or.inl h1, by simpa using hdp⟩
    · intro rd hrd
      simp only [List.mem_filter, List.mem_append, List.mem_map]
      constructor
      · rintro ⟨h1 | ⟨p, hp, heq⟩, -⟩
        · exact h1
        · subst heq
          simp at hrd
      · intro h1
        exact ⟨Or.inl h1, by simpa using hrd⟩
    · intro m hm
      exact List.mem_append_left _ hm

theorem uploadLoop_frame (t : Nat) (tn : String) (o : Option Nat) (ty : String) :
    ∀ (files : List UploadedFile) (st : UploadState) (nextId : Nat) (acc : List String),
      (∀ dp : DataProduct, dp.id < nextId →
        (dp ∈ (uploadLoop t tn o ty files st nextId acc).1.dataProducts ↔
          dp ∈ st.dataProducts)) ∧
      (∀ rd : ReducedDatum, rd.dataProductId < nextId →
        (rd ∈ (uploadLoop t tn o ty files st nextId acc).1.reducedData ↔
          rd ∈ st.reducedData)) ∧
      (∀ m ∈ st.messages, m ∈ (uploadLoop t tn o ty files st nextId acc).1.messages) := by
  intro files
  induction files with
  | nil =>
    intro st nextId acc
    exact ⟨fun dp _ => Iff.rfl, fun rd _ => Iff.rfl, fun m hm => hm⟩
  | cons f rest ih =>
    intro st nextId acc
    obtain ⟨hf1, hf2, hf3⟩ := processUploadedFile_frame t tn o ty st nextId f
    cases hp : processUploadedFile t tn o ty st nextId f with
    | mk st1 s? =>
      rw [hp] at hf1 hf2 hf3
      cases s? with
      | some s =>
        have hstep : uploadLoop t tn o ty (f :: rest) st nextId acc =
            uploadLoop t tn o ty rest st1 (nextId + 1) (acc ++ [s]) := by
          simp [uploadLoop, hp]
        rw [hstep]
        obtain ⟨ih1, ih2, ih3⟩ := ih st1 (nextId + 1) (acc ++ [s])
        refine ⟨?_, ?_, ?_⟩
        · intro dp hlt
          rw [ih1 dp (Nat.lt_succ_of_lt hlt)]
          exact hf1 dp (Nat.ne_of_lt hlt)
        · intro rd hlt
          rw [ih2 rd (Nat.lt_succ_of_lt hlt)]
          exact hf2 rd (Nat.ne_of_lt hlt)
        · intro m hm
          exact ih3 m (hf3 m hm)
      | none =>
        have hstep : uploadLoop t tn o ty (f :: rest) st nextId acc =
            uploadLoop t tn o ty rest st1 (nextId + 1) acc := by
          simp [uploadLoop, hp]
        rw [hstep]
        obtain ⟨ih1, ih2, ih3⟩ := ih st1 (nextId + 1) acc
        refine ⟨?_, ?_, ?_⟩
        · intro dp hlt
          rw [ih1 dp (Nat.lt_succ_of_lt hlt)]
          exact hf1 dp (Nat.ne_of_lt hlt)
        · intro rd hlt
          rw [ih2 rd (Nat.lt_succ_of_lt hlt)]
          exact hf2 rd (Nat.ne_of_lt hlt)
        · intro m hm
          exact ih3 m (hf3 m hm)

theorem uploadLoop_spec (t : Nat) (tn : String) (o : Option Nat) (ty : String) :
    ∀ (files : List UploadedFile) (st : UploadState) (nextId : Nat) (acc : List String),
      UploadBounded st nextId → ∀ (i : Nat) (hi : i < files.length),
      (∀ msg, uploadErrorMessage (mkUploadedDataProduct t tn o ty
          (files.get ⟨i, hi⟩).fileName (nextId + i)) (files.get ⟨i, hi⟩).outcome =
            some msg →
        (∀ d ∈ (uploadLoop t tn o ty files st nextId acc).1.dataProducts,
          d.id ≠ nextId + i) ∧
        (∀ rd ∈ (uploadLoop t tn o ty files st nextId acc).1.reducedData,
          rd.dataProductId ≠ nextId + i) ∧
        msg ∈ (uploadLoop t tn o ty files st nextId acc).1.messages) ∧
      ((files.get ⟨i, hi⟩).outcome = ProcessOutcome.success →
        mkUploadedDataProduct t tn o ty (files.get ⟨i, hi⟩).fileName (nextId + i) ∈
          (uploadLoop t tn o ty files st nextId acc).1.dataProducts ∧
        ∀ p ∈ (files.get ⟨i, hi⟩).reducedPayloads,
          ReducedDatum.mk (nextId + i) p ∈
            (uploadLoop t tn o ty files st nextId acc).1.reducedData) := by
  intro files
  induction files with
  | nil =>
    intro st nextId acc hb i hi
    exact absurd hi (by simp)
  | cons f rest ih =>
    intro st nextId acc hb i hi
    cases i with
    | zero =>
      simp only [List.get_cons_zero, Nat.add_zero]
      constructor
      · intro msg hmsg
        have hfail := processUploadedFile_eq_failure t tn o ty st nextId f msg hmsg
        have hstep : uploadLoop t tn o ty (f :: rest) st nextId acc =
            uploadLoop t tn o ty rest
              ({ st with
                  dataProducts := (st.dataProducts ++
                    [mkUploadedDataProduct t tn o ty f.fileName nextId]).filter
                      (fun d => d.id ≠ nextId)
                  reducedData := (st.reducedData ++
                    f.reducedPayloads.map (fun p => ReducedDatum.mk nextId p)).filter
                      (fun rd => rd.dataProductId ≠ nextId)
                  messages := st.messages ++ [msg] }) (nextId + 1) acc := by
          simp [uploadLoop, hfail]
        rw [hstep]
        obtain ⟨fr1, fr2, fr3⟩ := uploadLoop_frame t tn o ty rest _ (nextId + 1) acc
        refine ⟨?_, ?_, ?_⟩
        · intro d hd heq
          have hlt : d.id < nextId + 1 := by omega
          have hmem2 := (fr1 d hlt).mp hd
          have hne := (List.mem_filter.mp hmem2).2
          simp at hne
          exact hne heq
        · intro rd hrd heq
          have hlt : rd.dataProductId < nextId + 1 := by omega
          have hmem2 := (fr2 rd hlt).mp hrd
          have hne := (List.mem_filter.mp hmem2).2
          simp at hne
          exact hne heq
        · apply fr3
          simp
      · intro hsucc
        have hok := processUploadedFile_eq_success t tn o ty st nextId f hsucc
        have hstep : uploadLoop t tn o ty (f :: rest) st nextId acc =
            uploadLoop t tn o ty rest
              ({ st with
                  dataProducts := st.dataProducts ++
                    [mkUploadedDataProduct t tn o ty f.fileName nextId]
                  reducedData := st.reducedData ++
                    f.reducedPayloads.map (fun p => ReducedDatum.mk nextId p) })
              (nextId + 1)
              (acc ++ [dpStr (mkUploadedDataProduct t tn o ty f.fileName nextId)]) := by
          simp [uploadLoop, hok]
        rw [hstep]
        obtain ⟨fr1, fr2, fr3⟩ := uploadLoop_frame t tn o ty rest _ (nextId + 1) _
        constructor
        · apply (fr1 _ (by simp [mkUploadedDataProduct])).mpr
          simp
        · intro p hp
          apply (fr2 _ (Nat.lt_succ_self nextId)).mpr
          simp only [List.mem_append, List.mem_map]
          exact Or.inr ⟨p, hp, rfl⟩
    | succ j =>
      have hj : j < rest.length := by simpa using hi
      cases hp : processUploadedFile t tn o ty st nextId f with
      | mk st1 s? =>
        have hb1 : UploadBounded st1 (nextId + 1) := by
          have hb2 := processUploadedFile_bounded t tn o ty st nextId f hb
          rw [hp] at hb2
          exact hb2
        have hidx : nextId + (j + 1) = nextId + 1 + j := by omega
        cases s? with
        | some s =>
          have hstep : uploadLoop t tn o ty (f :: rest) st nextId acc =
              uploadLoop t tn o ty rest st1 (nextId + 1) (acc ++ [s]) := by
            simp [uploadLoop, hp]
          simp only [List.get_cons_succ, hstep, hidx]
          exact ih st1 (nextId + 1) (acc ++ [s]) hb1 j hj
        | none =>
          have hstep : uploadLoop t tn o ty (f :: rest) st nextId acc =
              uploadLoop t tn o ty rest st1 (nextId + 1) acc := by
            simp [uploadLoop, hp]
          simp only [List.get_cons_succ, hstep, hidx]
          exact ih st1 (nextId + 1) acc hb1 j hj

/-! ## Claim C1 -/

/-- C1: in `DataProductUploadView.form_valid`, every uploaded file whose
processing raises `InvalidFileFormatException` or any other exception
ends with all `ReducedDatum` rows of its `DataProduct` deleted, the
`DataProduct` itself deleted, and that file's error flash message added,
while the loop continues: every file that processed successfully, before
or after the failure, keeps its `DataProduct` and its `ReducedDatum`
rows in the final state. -/
theorem c1_upload_failure_cleanup (t : Nat) (tn : String) (o : Option Nat) (ty : String)
    (files : List UploadedFile) (st : UploadState) (nextId : Nat)
    (hb : UploadBounded st nextId) (i : Nat) (hi : i < files.length) :
    (∀ msg, uploadErrorMessage (mkUploadedDataProduct t tn o ty
        (files.get ⟨i, hi⟩).fileName (nextId + i)) (files.get ⟨i, hi⟩).outcome =
          some msg →
      (∀ d ∈ (uploadFormValid t tn o ty files st nextId).dataProducts,
        d.id ≠ nextId + i) ∧
      (∀ rd ∈ (uploadFormValid t tn o ty files st nextId).reducedData,
        rd.dataProductId ≠ nextId + i) ∧
      msg ∈ (uploadFormValid t tn o ty files st nextId).messages) ∧
    ((files.get ⟨i, hi⟩).outcome = ProcessOutcome.success →
      mkUploadedDataProduct t tn o ty (files.get ⟨i, hi⟩).fileName (nextId + i) ∈
        (uploadFormValid t tn o ty files st nextId).dataProducts ∧
      ∀ p ∈ (files.get ⟨i, hi⟩).reducedPayloads,
        ReducedDatum.mk (nextId + i) p ∈
          (uploadFormValid t tn o ty files st nextId).reducedData) := by
  obtain ⟨spec1, spec2⟩ := uploadLoop_spec t tn o ty files st nextId [] hb i hi
  cases hl : uploadLoop t tn o ty files st nextId [] with
  | mk st1 succ =>
    rw [hl] at spec1 spec2
    have hfv : uploadFormValid t tn o ty files st nextId =
        if succ ≠ [] then
          { st1 with messages := st1.messages ++ [successMessage succ] }
        else st1 := by
      simp [uploadFormValid, hl]
    rw [hfv]
    by_cases hne : succ ≠ []
    · rw [if_pos hne]
      constructor
      · intro msg hmsg
        obtain ⟨a, b, c⟩ := spec1 msg hmsg
        exact ⟨a, b, List.mem_append_left _ c⟩
      · exact spec2
    · rw [if_neg hne]
      exact ⟨spec1, spec2⟩

/-- C1 witness: two concrete uploads, the first with an invalid file
format; its error flash message is in the final state. -/
theorem c1_witness :
    invalidFormatMessage (mkUploadedDataProduct 5 "M31" none "photometry" "bad.csv" 1)
        "no header" ∈
      (uploadFormValid 5 "M31" none "photometry" sampleUploadFiles
        (UploadState.mk [] [] []) 1).messages := by
  have h := c1_upload_failure_cleanup 5 "M31" none "photometry" sampleUploadFiles
    (UploadState.mk [] [] []) 1 ⟨by simp, by simp⟩ 0 (by decide)
  exact (h.1 _ (by decide)).2.2

end TomDataproducts
